import Mathlib

/-!
Shallow embedding of the IMS backend core (`src/ims_backend.py`):
the dashboard KPI aggregator (`get_dashboard_summary`) and the document
filter engine (`filter_documents`).  Python dictionaries are modelled as
insertion-ordered association lists; iterating `dict.values()` is
modelled by a plain list of the values.  Operations that can raise a
Python exception (`KeyError` on a missing location id, and
`ZeroDivisionError` in the percent computation) return `Option`, with
`none` standing for the raised exception.  The float value of `percent`
is modelled exactly as a rational; the final `round(_, 1)` of the float
is abstracted away since no verified property depends on it.
-/

namespace IMS

/-- A product record, as stored in `data['products']` (spec §3: `stock_level`
is a non-negative integer). -/
structure Product where
  id : String
  category : String
  name : String
  location_id : String
  stock_level : Nat
  reorder_point : Nat
deriving DecidableEq

/-- A warehouse location record, as stored in `data['locations']`. -/
structure Location where
  id : String
  name : String
  manager : String
deriving DecidableEq

/-- One line of a stock-movement document. -/
structure DocLine where
  product_id : String
  qty : Int
  category : String
deriving DecidableEq

/-- A stock-movement document, as stored in `data['documents']`.  The
`source_location` / `target_location` keys may be absent in the Python
dict, hence `Option`; `doc.get(key)` is modelled by reading the option. -/
structure Document where
  id : String
  type : String
  status : String
  created_by : String
  created_at : String
  lines : List DocLine
  source_location : Option String
  target_location : Option String
  category_list : List String
deriving DecidableEq

/-- The full dataset loaded by `load_data()`: `products` and `documents`
are the `.values()` of the corresponding dicts in insertion order, and
`locations` is kept as a keyed association list because the aggregator
looks locations up by id. -/
structure Snapshot where
  products : List Product
  documents : List Document
  locations : List (String × Location)
deriving DecidableEq

/-- `LOW_STOCK_THRESHOLD = 20`, the KPI threshold constant. -/
def LOW_STOCK_THRESHOLD : Nat := 20

/-- Condition of the `low_stock_items` list comprehension:
`p['stock_level'] > 0 and p['stock_level'] <= LOW_STOCK_THRESHOLD`. -/
def isLowStock (p : Product) : Bool :=
  decide (0 < p.stock_level ∧ p.stock_level ≤ LOW_STOCK_THRESHOLD)

/-- Condition of the `out_of_stock_items` list comprehension:
`p['stock_level'] == 0`. -/
def isOutOfStock (p : Product) : Bool :=
  decide (p.stock_level = 0)

/-- `total_products_in_stock = sum(p['stock_level'] for p in products)`. -/
def total_products_in_stock (products : List Product) : Nat :=
  (products.map Product.stock_level).sum

/-- `low_stock_items = len([p for p in products if p['stock_level'] > 0 and
p['stock_level'] <= LOW_STOCK_THRESHOLD])`. -/
def low_stock_items (products : List Product) : Nat :=
  (products.filter isLowStock).length

/-- `out_of_stock_items = len([p for p in products if p['stock_level'] == 0])`. -/
def out_of_stock_items (products : List Product) : Nat :=
  (products.filter isOutOfStock).length

/-- `pending_receipts = len([d for d in docs if d['type'] == 'Receipt' and
d['status'] in ['Waiting', 'Ready']])`. -/
def pending_receipts (docs : List Document) : Nat :=
  (docs.filter (fun d => d.type == "Receipt" && ["Waiting", "Ready"].contains d.status)).length

/-- `pending_deliveries`, same pattern for type `Delivery`. -/
def pending_deliveries (docs : List Document) : Nat :=
  (docs.filter (fun d => d.type == "Delivery" && ["Waiting", "Ready"].contains d.status)).length

/-- `transfers_scheduled`, same pattern for type `Internal`. -/
def transfers_scheduled (docs : List Document) : Nat :=
  (docs.filter (fun d => d.type == "Internal" && ["Waiting", "Ready"].contains d.status)).length

/-- `adjustments_pending = len([d for d in docs if d['type'] == 'Adjustment'
and d['status'] in ['Draft', 'Waiting', 'Ready']])`. -/
def adjustments_pending (docs : List Document) : Nat :=
  (docs.filter (fun d => d.type == "Adjustment" && ["Draft", "Waiting", "Ready"].contains d.status)).length

/-- `d[k] = d.get(k, 0) + v` on an insertion-ordered Python dict: update
the existing key in place, or append a new key at the end. -/
def bumpAssoc : List (String × Nat) → String → Nat → List (String × Nat)
  | [], k, v => [(k, v)]
  | (k', v') :: rest, k, v =>
    if k' = k then (k', v' + v) :: rest else (k', v') :: bumpAssoc rest k v

/-- The `location_stock` dict: for each product, add its `stock_level` to
the entry keyed by its `location_id`. -/
def location_stock (products : List Product) : List (String × Nat) :=
  products.foldl (fun acc p => bumpAssoc acc p.location_id p.stock_level) []

/-- One entry of `location_chart_data`: `{'location': name, 'stock': stock}`. -/
structure LocationEntry where
  location : String
  stock : Nat
deriving DecidableEq

/-- The `location_chart_data` list comprehension.  The subscript
`data['locations'][loc]` raises `KeyError` when `loc` is not a key of the
locations dict; that exception is modelled by `none`. -/
def location_chart_data (products : List Product)
    (locations : List (String × Location)) : Option (List LocationEntry) :=
  (location_stock products).mapM fun e =>
    (locations.lookup e.1).map fun loc => ⟨loc.name, e.2⟩

/-- The `category_counts` dict: for each product, add its `stock_level` to
the entry keyed by its `category`. -/
def category_counts (products : List Product) : List (String × Nat) :=
  products.foldl (fun acc p => bumpAssoc acc p.category p.stock_level) []

/-- One entry of `category_chart_data`: `{'name': cat, 'value': count,
'percent': round(count / total_stock * 100, 1)}`.  The percent is kept as
an exact rational (the 1-decimal float rounding is abstracted). -/
structure CategoryEntry where
  name : String
  value : Nat
  percent : ℚ
deriving DecidableEq

/-- The `category_chart_data` list comprehension.  The Python expression
`count / total_stock * 100` raises `ZeroDivisionError` when
`total_stock == 0` and the comprehension is non-empty; that exception is
modelled by `none`. -/
def category_chart_data (products : List Product) (total_stock : Nat) :
    Option (List CategoryEntry) :=
  (category_counts products).mapM fun e =>
    if total_stock = 0 then none
    else some ⟨e.1, e.2, (e.2 : ℚ) / (total_stock : ℚ) * 100⟩

/-- The JSON object returned by `get_dashboard_summary`. -/
structure Summary where
  total_products_in_stock : Nat
  low_stock_items : Nat
  out_of_stock_items : Nat
  pending_receipts : Nat
  pending_deliveries : Nat
  transfers_scheduled : Nat
  adjustments_pending : Nat
  locations : List (String × Location)
  location_chart_data : List LocationEntry
  category_chart_data : List CategoryEntry
deriving DecidableEq

/-- `get_dashboard_summary` over a loaded snapshot.  The chart
computations run in source order (location chart before category chart);
`none` models an uncaught exception escaping the endpoint. -/
def get_dashboard_summary (s : Snapshot) : Option Summary :=
  match location_chart_data s.products s.locations with
  | none => none
  | some lcd =>
    match category_chart_data s.products (total_products_in_stock s.products) with
    | none => none
    | some ccd =>
      some
        { total_products_in_stock := total_products_in_stock s.products
          low_stock_items := low_stock_items s.products
          out_of_stock_items := out_of_stock_items s.products
          pending_receipts := pending_receipts s.documents
          pending_deliveries := pending_deliveries s.documents
          transfers_scheduled := transfers_scheduled s.documents
          adjustments_pending := adjustments_pending s.documents
          locations := s.locations
          location_chart_data := lcd
          category_chart_data := ccd }

/-- A value a recognized filter key may hold in the request JSON:
absent (`dict.get` returns `None`), JSON `null`, a string, a number, or a
list of strings. -/
inductive FilterVal where
  | absent
  | null
  | str (s : String)
  | num (n : Int)
  | list (l : List String)
deriving DecidableEq

/-- The Python guard `if v and isinstance(v, list)`: the filter pass runs
exactly when the value is a truthy list, i.e. a non-empty list.  Absent,
`None`, empty-list, and non-list values all fail the guard. -/
def activeList : FilterVal → Option (List String)
  | .list (x :: xs) => some (x :: xs)
  | _ => none

/-- The filter specification posted to `/api/documents/filter`: the four
keys the endpoint reads with `filters.get(...)`. -/
structure FilterSpec where
  document_type : FilterVal
  status : FilterVal
  location : FilterVal
  category : FilterVal
deriving DecidableEq

/-- `doc.get(key) in values` where the dict value is an optional string
and `values` is a list of strings: `None` is never a member. -/
def optMem (o : Option String) (l : List String) : Bool :=
  match o with
  | some s => l.contains s
  | none => false

/-- The document-type pass: when active, keep documents with
`doc['type'] in doc_types`. -/
def filterByType (docs : List Document) (fv : FilterVal) : List Document :=
  match activeList fv with
  | some l => docs.filter fun d => l.contains d.type
  | none => docs

/-- The status pass: when active, keep documents with
`doc['status'] in statuses`. -/
def filterByStatus (docs : List Document) (fv : FilterVal) : List Document :=
  match activeList fv with
  | some l => docs.filter fun d => l.contains d.status
  | none => docs

/-- The location pass: when active, keep documents with
`doc.get('source_location') in locations or doc.get('target_location') in
locations`. -/
def filterByLocation (docs : List Document) (fv : FilterVal) : List Document :=
  match activeList fv with
  | some l => docs.filter fun d =>
      optMem d.source_location l || optMem d.target_location l
  | none => docs

/-- The category pass: when active, keep documents with
`any(c in categories for c in doc.get('category_list', []))`. -/
def filterByCategory (docs : List Document) (fv : FilterVal) : List Document :=
  match activeList fv with
  | some l => docs.filter fun d => d.category_list.any fun c => l.contains c
  | none => docs

/-- The four filter passes in source order: type, status, location,
category. -/
def applyFilters (docs : List Document) (fs : FilterSpec) : List Document :=
  filterByCategory
    (filterByLocation
      (filterByStatus
        (filterByType docs fs.document_type)
        fs.status)
      fs.location)
    fs.category

/-- `filtered_docs.sort(key=lambda x: x['created_at'], reverse=True)`:
a stable sort, descending on the `created_at` string. -/
def sortDocsDesc (docs : List Document) : List Document :=
  docs.mergeSort fun a b => decide (b.created_at ≤ a.created_at)

/-- The JSON object returned by `filter_documents`. -/
structure FilterResult where
  count : Nat
  documents : List Document
deriving DecidableEq

/-- `filter_documents`: apply the four passes, sort descending by
`created_at`, and return the full match count together with the first 15
documents. -/
def filter_documents (docs : List Document) (fs : FilterSpec) : FilterResult :=
  let sorted := sortDocsDesc (applyFilters docs fs)
  { count := sorted.length, documents := sorted.take 15 }

/-- Spec-side field semantics (spec §4.2): a present filter field imposes
its membership constraint, and a field that is absent, null, empty, or
not a list imposes no constraint. -/
def matchesField (fv : FilterVal) (sat : List String → Bool) : Bool :=
  match activeList fv with
  | some l => sat l
  | none => true

/-- Spec-side survival predicate (spec §4.2): a document survives exactly
when it satisfies every present filter field, the four constraints ANDed
together. -/
def survives (fs : FilterSpec) (d : Document) : Bool :=
  matchesField fs.document_type (fun l => l.contains d.type) &&
  matchesField fs.status (fun l => l.contains d.status) &&
  matchesField fs.location
    (fun l => optMem d.source_location l || optMem d.target_location l) &&
  matchesField fs.category (fun l => d.category_list.any fun c => l.contains c)

/-- Spec-side `pending_receipts` (spec §4.1): count of documents of type
`Receipt` whose status lies in the set `{Waiting, Ready}`. -/
def pending_receipts_spec (docs : List Document) : Nat :=
  (docs.filter fun d =>
    d.type == "Receipt" && (d.status == "Waiting" || d.status == "Ready")).length

/-- Spec-side `pending_deliveries` (spec §4.1). -/
def pending_deliveries_spec (docs : List Document) : Nat :=
  (docs.filter fun d =>
    d.type == "Delivery" && (d.status == "Waiting" || d.status == "Ready")).length

/-- Spec-side `transfers_scheduled` (spec §4.1). -/
def transfers_scheduled_spec (docs : List Document) : Nat :=
  (docs.filter fun d =>
    d.type == "Internal" && (d.status == "Waiting" || d.status == "Ready")).length

/-- Spec-side `adjustments_pending` (spec §4.1): the wider status set
`{Draft, Waiting, Ready}`. -/
def adjustments_pending_spec (docs : List Document) : Nat :=
  (docs.filter fun d =>
    d.type == "Adjustment" &&
      (d.status == "Draft" || d.status == "Waiting" || d.status == "Ready")).length

/-! ### Concrete snapshots and documents used to instantiate the theorems -/

/-- A product with zero stock, in a location that does exist. -/
def zeroStockProduct : Product :=
  ⟨"P1A2B3C4", "Electronics", "Laptop Model X", "W001", 0, 30⟩

/-- A snapshot whose single product has `stock_level 0`, so
`total_products_in_stock = 0` while the category dict is non-empty. -/
def zeroStockSnap : Snapshot :=
  ⟨[zeroStockProduct], [], [("W001", ⟨"W001", "Main Warehouse", "Alice"⟩)]⟩

/-- The empty snapshot. -/
def emptySnap : Snapshot := ⟨[], [], []⟩

/-- The summary the aggregator produces on the empty snapshot. -/
def emptySummary : Summary := ⟨0, 0, 0, 0, 0, 0, 0, [], [], []⟩

/-- A product with stock 5 in category `Electronics` at location `W001`. -/
def fiveStockProduct : Product :=
  ⟨"P5D6E7F8", "Electronics", "Wireless Mouse Z", "W001", 5, 50⟩

/-- A one-product snapshot with positive total stock. -/
def fiveStockSnap : Snapshot :=
  ⟨[fiveStockProduct], [], [("W001", ⟨"W001", "Main Warehouse", "Alice"⟩)]⟩

/-- The summary the aggregator produces on `fiveStockSnap`. -/
def fiveStockSummary : Summary :=
  ⟨5, 1, 0, 0, 0, 0, 0, [("W001", ⟨"W001", "Main Warehouse", "Alice"⟩)],
    [⟨"Main Warehouse", 5⟩],
    [⟨"Electronics", 5, ((5 : ℕ) : ℚ) / ((5 : ℕ) : ℚ) * 100⟩]⟩

/-- A product whose `location_id` is not a key of any locations mapping
used alongside it. -/
def strayProduct : Product :=
  ⟨"P9G0H1I2", "Components", "Memory Module 16GB", "W404", 3, 10⟩

/-- A snapshot containing a product whose `location_id` is absent from
the locations mapping. -/
def straySnap : Snapshot := ⟨[strayProduct], [], []⟩

/-- A delivery document whose `source_location` is `W001`. -/
def deliveryDocW1 : Document :=
  ⟨"D001", "Delivery", "Ready", "SM001", "2024-01-02T00:00:00", [],
    some "W001", none, ["Electronics"]⟩

end IMS

namespace IMS

/-! ### Helper lemmas about the filter engine -/

theorem filterByType_eq_filter (docs : List Document) (fv : FilterVal) :
    filterByType docs fv =
      docs.filter fun d => matchesField fv fun l => l.contains d.type := by
  unfold filterByType matchesField
  cases h : activeList fv <;> simp [h, List.filter_true]

theorem filterByStatus_eq_filter (docs : List Document) (fv : FilterVal) :
    filterByStatus docs fv =
      docs.filter fun d => matchesField fv fun l => l.contains d.status := by
  unfold filterByStatus matchesField
  cases h : activeList fv <;> simp [h, List.filter_true]

theorem filterByLocation_eq_filter (docs : List Document) (fv : FilterVal) :
    filterByLocation docs fv =
      docs.filter fun d => matchesField fv fun l =>
        optMem d.source_location l || optMem d.target_location l := by
  unfold filterByLocation matchesField
  cases h : activeList fv <;> simp [h, List.filter_true]

theorem filterByCategory_eq_filter (docs : List Document) (fv : FilterVal) :
    filterByCategory docs fv =
      docs.filter fun d => matchesField fv fun l =>
        d.category_list.any fun c => l.contains c := by
  unfold filterByCategory matchesField
  cases h : activeList fv <;> simp [h, List.filter_true]

theorem applyFilters_eq_filter (docs : List Document) (fs : FilterSpec) :
    applyFilters docs fs = docs.filter (survives fs) := by
  unfold applyFilters
  rw [filterByType_eq_filter, filterByStatus_eq_filter,
    filterByLocation_eq_filter, filterByCategory_eq_filter,
    List.filter_filter, List.filter_filter, List.filter_filter]
  apply List.filter_congr
  intro d _
  unfold survives
  cases matchesField fs.document_type fun l => l.contains d.type <;>
    cases matchesField fs.status fun l => l.contains d.status <;>
      cases matchesField fs.location fun l =>
        optMem d.source_location l || optMem d.target_location l <;>
        cases matchesField fs.category fun l =>
          d.category_list.any fun c => l.contains c <;>
          rfl

/-! ### Claim theorems for the filter engine -/

/-- C5: a document survives filtering iff it satisfies every present
filter field (the four constraints ANDed), and a recognized field that is
absent, null, empty, or not a list imposes no constraint (and, the
functions being total, causes no error). -/
theorem filter_conjunction_semantics (docs : List Document) (fs : FilterSpec)
    (d : Document) (sat : List String → Bool) (s : String) (n : Int) :
    (d ∈ applyFilters docs fs ↔ d ∈ docs ∧ survives fs d = true) ∧
    applyFilters docs fs = docs.filter (survives fs) ∧
    matchesField .absent sat = true ∧
    matchesField .null sat = true ∧
    matchesField (.str s) sat = true ∧
    matchesField (.num n) sat = true ∧
    matchesField (.list []) sat = true := by
  refine ⟨?_, applyFilters_eq_filter docs fs, rfl, rfl, rfl, rfl, rfl⟩
  rw [applyFilters_eq_filter]
  simp [List.mem_filter]

/-- C8: the filter passes are idempotent — running the same filter spec
over an already-filtered result returns it unchanged. -/
theorem filter_idempotent (docs : List Document) (fs : FilterSpec) :
    applyFilters (applyFilters docs fs) fs = applyFilters docs fs := by
  rw [applyFilters_eq_filter, applyFilters_eq_filter, List.filter_filter]
  simp [Bool.and_self]

/-- C6: with an active (non-empty list) location filter, a document
survives the location pass iff its `source_location` or its
`target_location` is a member of the list; a document with neither field
is excluded. -/
theorem location_filter_semantics (docs : List Document) (l : List String)
    (d : Document) (h : l ≠ []) :
    (d ∈ filterByLocation docs (.list l) ↔
      d ∈ docs ∧
        (optMem d.source_location l = true ∨ optMem d.target_location l = true)) ∧
    (d.source_location = none → d.target_location = none →
      d ∉ filterByLocation docs (.list l)) := by
  match l, h with
  | x :: xs, _ =>
    constructor
    · simp [filterByLocation, activeList, List.mem_filter, Bool.or_eq_true]
    · intro hs ht hmem
      simp [filterByLocation, activeList, List.mem_filter, hs, ht, optMem] at hmem

/-- Instance of C6 at a concrete document and filter list. -/
theorem location_filter_semantics_witness :
    (deliveryDocW1 ∈ filterByLocation [deliveryDocW1] (.list ["W001"]) ↔
      deliveryDocW1 ∈ [deliveryDocW1] ∧
        (optMem deliveryDocW1.source_location ["W001"] = true ∨
          optMem deliveryDocW1.target_location ["W001"] = true)) ∧
    (deliveryDocW1.source_location = none → deliveryDocW1.target_location = none →
      deliveryDocW1 ∉ filterByLocation [deliveryDocW1] (.list ["W001"])) :=
  location_filter_semantics [deliveryDocW1] ["W001"] deliveryDocW1 (by decide)

/-- C7: the endpoint returns the pre-truncation match count together with
the first 15 documents of the matched set sorted by `created_at`
descending; the returned page therefore has `min 15 count` documents, and
is sorted descending. -/
theorem filter_result_sorted_truncated (docs : List Document) (fs : FilterSpec) :
    (filter_documents docs fs).count = (applyFilters docs fs).length ∧
    (filter_documents docs fs).documents =
      (sortDocsDesc (applyFilters docs fs)).take 15 ∧
    (filter_documents docs fs).documents.length =
      min 15 (filter_documents docs fs).count ∧
    (sortDocsDesc (applyFilters docs fs)).Perm (applyFilters docs fs) ∧
    (filter_documents docs fs).documents.Pairwise
      (fun a b => b.created_at ≤ a.created_at) := by
  refine ⟨?_, rfl, ?_, List.mergeSort_perm _ _, ?_⟩
  · simp [filter_documents, sortDocsDesc]
  · simp [filter_documents, List.length_take]
  · have hs : (sortDocsDesc (applyFilters docs fs)).Pairwise
        (fun a b => decide (b.created_at ≤ a.created_at) = true) := by
      apply List.sorted_mergeSort
      · intro a b c hab hbc
        simp only [decide_eq_true_eq] at hab hbc ⊢
        exact le_trans hbc hab
      · intro a b
        simp only [Bool.or_eq_true, decide_eq_true_eq]
        exact le_total b.created_at a.created_at
    have ht : (filter_documents docs fs).documents.Pairwise
        (fun a b => decide (b.created_at ≤ a.created_at) = true) :=
      hs.sublist (List.take_sublist 15 _)
    exact ht.imp fun h => of_decide_eq_true h

/-- C4: the four pending-document counters match the spec: receipts,
deliveries and internal transfers are counted with status in
`{Waiting, Ready}`, adjustments with the wider set `{Draft, Waiting,
Ready}`. -/
theorem pending_counters_match_spec (docs : List Document) :
    pending_receipts docs = pending_receipts_spec docs ∧
    pending_deliveries docs = pending_deliveries_spec docs ∧
    transfers_scheduled docs = transfers_scheduled_spec docs ∧
    adjustments_pending docs = adjustments_pending_spec docs := by
  refine ⟨?_, ?_, ?_, ?_⟩ <;>
  · apply congrArg List.length
    apply List.filter_congr
    intro d _
    simp [List.contains_cons, Bool.beq_eq_decide_eq, Bool.or_assoc]

/-- C3: with threshold 20, every product falls in exactly one bucket:
zero stock (counted out-of-stock), stock in 1..20 (counted low-stock), or
stock above 20 (counted in neither); the two counters use exactly these
predicates. -/
theorem stock_classification_trichotomy (products : List Product) (p : Product)
    (_hp : p ∈ products) :
    ((p.stock_level = 0 ∧ isOutOfStock p = true ∧ isLowStock p = false) ∨
      (1 ≤ p.stock_level ∧ p.stock_level ≤ 20 ∧
        isLowStock p = true ∧ isOutOfStock p = false) ∨
      (20 < p.stock_level ∧ isLowStock p = false ∧ isOutOfStock p = false)) ∧
    ¬(isLowStock p = true ∧ isOutOfStock p = true) ∧
    low_stock_items products = (products.filter isLowStock).length ∧
    out_of_stock_items products = (products.filter isOutOfStock).length := by
  refine ⟨?_, ?_, rfl, rfl⟩ <;>
  · simp only [isLowStock, isOutOfStock, LOW_STOCK_THRESHOLD,
      decide_eq_true_eq, decide_eq_false_iff_not, not_and]
    omega

/-- Instance of C3 at a concrete zero-stock product. -/
theorem stock_classification_trichotomy_witness :
    ((zeroStockProduct.stock_level = 0 ∧ isOutOfStock zeroStockProduct = true ∧
        isLowStock zeroStockProduct = false) ∨
      (1 ≤ zeroStockProduct.stock_level ∧ zeroStockProduct.stock_level ≤ 20 ∧
        isLowStock zeroStockProduct = true ∧ isOutOfStock zeroStockProduct = false) ∨
      (20 < zeroStockProduct.stock_level ∧ isLowStock zeroStockProduct = false ∧
        isOutOfStock zeroStockProduct = false)) ∧
    ¬(isLowStock zeroStockProduct = true ∧ isOutOfStock zeroStockProduct = true) ∧
    low_stock_items [zeroStockProduct] =
      ([zeroStockProduct].filter isLowStock).length ∧
    out_of_stock_items [zeroStockProduct] =
      ([zeroStockProduct].filter isOutOfStock).length :=
  stock_classification_trichotomy [zeroStockProduct] zeroStockProduct (by decide)

/-! ### Helper lemmas about the aggregator -/

theorem sum_snd_bumpAssoc (acc : List (String × Nat)) (k : String) (v : Nat) :
    ((bumpAssoc acc k v).map Prod.snd).sum = (acc.map Prod.snd).sum + v := by
  induction acc with
  | nil => simp [bumpAssoc]
  | cons e rest ih =>
    obtain ⟨k', v'⟩ := e
    by_cases hk : k' = k <;> simp [bumpAssoc, hk, ih] <;> omega

theorem sum_snd_foldl_bump (keyf : Product → String) (ps : List Product) :
    ∀ acc : List (String × Nat),
      (((ps.foldl (fun a p => bumpAssoc a (keyf p) p.stock_level) acc)).map
          Prod.snd).sum =
        (acc.map Prod.snd).sum + (ps.map Product.stock_level).sum := by
  induction ps with
  | nil => intro acc; simp
  | cons p ps ih =>
    intro acc
    simp only [List.foldl_cons, List.map_cons, List.sum_cons]
    rw [ih, sum_snd_bumpAssoc]
    omega

theorem sum_snd_category_counts (ps : List Product) :
    ((category_counts ps).map Prod.snd).sum = total_products_in_stock ps := by
  unfold category_counts total_products_in_stock
  rw [sum_snd_foldl_bump Product.category ps []]
  simp

theorem mapM_eq_map_of_forall_some {α β : Type} (f : α → Option β) (g : α → β)
    (hf : ∀ a, f a = some (g a)) (l : List α) : l.mapM f = some (l.map g) := by
  induction l with
  | nil => rfl
  | cons a as ih =>
    rw [List.mapM_cons, hf, ih]
    rfl

theorem mapM_eq_none_of_mem {α β : Type} (f : α → Option β) (l : List α) (a : α)
    (ha : a ∈ l) (hf : f a = none) : l.mapM f = none := by
  induction l with
  | nil => cases ha
  | cons b bs ih =>
    rw [List.mapM_cons]
    rcases List.mem_cons.mp ha with rfl | hmem
    · rw [hf]
      rfl
    · rw [ih hmem]
      cases hb : f b <;> rfl

theorem key_mem_bumpAssoc_self (acc : List (String × Nat)) (k : String) (v : Nat) :
    k ∈ (bumpAssoc acc k v).map Prod.fst := by
  induction acc with
  | nil => simp [bumpAssoc]
  | cons e rest ih =>
    obtain ⟨k', v'⟩ := e
    by_cases hk : k' = k <;> simp [bumpAssoc, hk, ih]

theorem key_mem_bumpAssoc_mono (acc : List (String × Nat)) (k : String) (v : Nat)
    (x : String) (hx : x ∈ acc.map Prod.fst) :
    x ∈ (bumpAssoc acc k v).map Prod.fst := by
  induction acc with
  | nil => cases hx
  | cons e rest ih =>
    obtain ⟨k', v'⟩ := e
    rcases List.mem_cons.mp hx with h | h <;>
      by_cases hk : k' = k <;>
        simp_all [bumpAssoc]

theorem key_mem_foldl_bump_mono (keyf : Product → String) (ps : List Product) :
    ∀ (acc : List (String × Nat)) (x : String), x ∈ acc.map Prod.fst →
      x ∈ ((ps.foldl (fun a p => bumpAssoc a (keyf p) p.stock_level) acc)).map
        Prod.fst := by
  induction ps with
  | nil => intro acc x hx; simpa using hx
  | cons p ps ih =>
    intro acc x hx
    simp only [List.foldl_cons]
    exact ih _ x (key_mem_bumpAssoc_mono _ _ _ _ hx)

theorem key_mem_foldl_bump (keyf : Product → String) (ps : List Product)
    (p : Product) (hp : p ∈ ps) :
    ∀ acc : List (String × Nat),
      keyf p ∈ ((ps.foldl (fun a p => bumpAssoc a (keyf p) p.stock_level) acc)).map
        Prod.fst := by
  induction ps with
  | nil => cases hp
  | cons q qs ih =>
    intro acc
    simp only [List.foldl_cons]
    rcases List.mem_cons.mp hp with rfl | hmem
    · exact key_mem_foldl_bump_mono keyf qs _ _ (key_mem_bumpAssoc_self acc _ _)
    · exact ih hmem _

theorem key_mem_location_stock (ps : List Product) (p : Product) (hp : p ∈ ps) :
    p.location_id ∈ (location_stock ps).map Prod.fst :=
  key_mem_foldl_bump Product.location_id ps p hp []

/-! ### Claim theorems for the aggregator -/

/-- C1 counter-evidence: on a snapshot whose single product has zero
stock, `total_products_in_stock` is `0`, the category dict is non-empty,
and the percent expression `count / total_stock * 100` raises
`ZeroDivisionError` (modelled by `none`): the summary is not produced and
no entry with percent `0.0` exists. -/
theorem dashboard_raises_on_zero_total :
    total_products_in_stock zeroStockSnap.products = 0 ∧
    category_counts zeroStockSnap.products ≠ [] ∧
    category_chart_data zeroStockSnap.products
      (total_products_in_stock zeroStockSnap.products) = none ∧
    get_dashboard_summary zeroStockSnap = none := by
  refine ⟨rfl, ?_, rfl, rfl⟩
  decide

/-- C2: whenever the dashboard summary is produced, its
`total_products_in_stock` equals the sum of `stock_level` over all
products, and is `0` on an empty product collection. -/
theorem dashboard_total_eq_sum (s : Snapshot) (out : Summary)
    (h : get_dashboard_summary s = some out) :
    out.total_products_in_stock = (s.products.map Product.stock_level).sum ∧
    (s.products = [] → out.total_products_in_stock = 0) := by
  unfold get_dashboard_summary at h
  cases hl : location_chart_data s.products s.locations <;> rw [hl] at h
  · exact absurd h (by simp)
  cases hc : category_chart_data s.products (total_products_in_stock s.products) <;>
    rw [hc] at h
  · exact absurd h (by simp)
  injection h with h
  constructor
  · rw [← h]
    rfl
  · intro he
    rw [← h, he]
    rfl

/-- Instance of C2 at the empty snapshot. -/
theorem dashboard_total_eq_sum_witness :
    emptySummary.total_products_in_stock =
      (emptySnap.products.map Product.stock_level).sum ∧
    (emptySnap.products = [] → emptySummary.total_products_in_stock = 0) :=
  dashboard_total_eq_sum emptySnap emptySummary (by decide)

theorem mapM_const_none {α β : Type} (l : List α) (out : List β)
    (h : l.mapM (fun _ => (none : Option β)) = some out) : l = [] ∧ out = [] := by
  cases l with
  | nil =>
    rw [List.mapM_nil] at h
    injection h with h
    exact ⟨rfl, h.symm⟩
  | cons a as =>
    rw [List.mapM_cons] at h
    simp at h

theorem category_chart_values (ps : List Product) (t : Nat)
    (l : List CategoryEntry) (hc : category_chart_data ps t = some l) :
    (l.map CategoryEntry.value).sum = ((category_counts ps).map Prod.snd).sum := by
  unfold category_chart_data at hc
  by_cases h0 : t = 0
  · subst h0
    simp only [reduceIte] at hc
    obtain ⟨hcc, hl⟩ := mapM_const_none _ _ hc
    rw [hl, hcc]
    rfl
  · have hsome := mapM_eq_map_of_forall_some
      (fun e : String × Nat =>
        if t = 0 then none else some ⟨e.1, e.2, (e.2 : ℚ) / (t : ℚ) * 100⟩)
      (fun e : String × Nat =>
        (⟨e.1, e.2, (e.2 : ℚ) / (t : ℚ) * 100⟩ : CategoryEntry))
      (fun e => by simp [h0]) (category_counts ps)
    rw [hsome] at hc
    injection hc with hc
    rw [← hc, List.map_map]
    rfl

/-- C9: whenever the dashboard summary is produced for a non-empty
product collection, the `value` fields of `category_chart_data` sum to
`total_products_in_stock`. -/
theorem category_values_sum_to_total (s : Snapshot) (out : Summary)
    (h : get_dashboard_summary s = some out) (_hne : s.products ≠ []) :
    (out.category_chart_data.map CategoryEntry.value).sum =
      out.total_products_in_stock := by
  unfold get_dashboard_summary at h
  cases hl : location_chart_data s.products s.locations <;> rw [hl] at h
  · exact absurd h (by simp)
  cases hc : category_chart_data s.products (total_products_in_stock s.products) <;>
    rw [hc] at h
  · exact absurd h (by simp)
  injection h with h
  rw [← h]
  exact (category_chart_values _ _ _ hc).trans (sum_snd_category_counts s.products)

/-- Instance of C9 at a one-product snapshot with positive stock. -/
theorem category_values_sum_to_total_witness :
    (fiveStockSummary.category_chart_data.map CategoryEntry.value).sum =
      fiveStockSummary.total_products_in_stock :=
  category_values_sum_to_total fiveStockSnap fiveStockSummary rfl (by decide)

/-- C10: the dashboard summary is only defined when every product's
`location_id` is a key of the locations mapping — with a product whose
location is unknown, the location-chart lookup raises (modelled by
`none`) and no summary is produced. -/
theorem dashboard_requires_known_locations (s : Snapshot) (p : Product)
    (hp : p ∈ s.products) (hmiss : s.locations.lookup p.location_id = none) :
    location_chart_data s.products s.locations = none ∧
    get_dashboard_summary s = none := by
  have hkey : p.location_id ∈ (location_stock s.products).map Prod.fst :=
    key_mem_location_stock s.products p hp
  obtain ⟨e, he, hfst⟩ := List.mem_map.mp hkey
  have hnone : location_chart_data s.products s.locations = none := by
    unfold location_chart_data
    apply mapM_eq_none_of_mem _ _ e he
    rw [hfst, hmiss]
    rfl
  refine ⟨hnone, ?_⟩
  unfold get_dashboard_summary
  rw [hnone]

/-- Instance of C10: a product stored at the unknown location `W404`. -/
theorem dashboard_requires_known_locations_witness :
    location_chart_data straySnap.products straySnap.locations = none ∧
    get_dashboard_summary straySnap = none :=
  dashboard_requires_known_locations straySnap strayProduct (by decide) rfl

end IMS
